import Mathlib

/-!
Verification of the Task-Scheduler core (job queue + thread pool) against its
specification.  The C++ classes `JobQueue` (src/job_queue.cpp) and `ThreadPool`
(src/thread_pool.cpp) are shallowly embedded: the queue's buffer is a list of
job handles, a `std::unique_ptr<IJob>` is an `Option Job` (with `none` playing
the role of `nullptr`), and the blocking `pop` is modelled as a partial-return
function whose `none` result means "the call blocks".  Logging is
observability-only in the source; the one log call that the spec makes
behaviourally relevant (the exception report in the worker loop) is carried in
the worker-step result.
-/

namespace TaskScheduler

/-- Outcome of `IJob::execute()`: a normal return, a thrown exception derived
from `std::exception` (carrying the `what()` message), or a thrown value not
derived from `std::exception`.  Jobs are caller-supplied, so all three
behaviours are possible environments for the pool. -/
inductive JobBehavior where
  | ok : JobBehavior
  | throwStd : String → JobBehavior
  | throwOther : JobBehavior
deriving DecidableEq

/-- A concrete job object implementing `IJob`: an identity plus the behaviour
of its `execute()` method. -/
structure Job where
  id : Nat
  behavior : JobBehavior
deriving DecidableEq

/-- A `std::unique_ptr<IJob>` handle: either owns a job or is `nullptr`
(`none`).  `JobQueue::push` takes such a handle and performs no null check. -/
abbrev JobHandle := Option Job

/-- Models `IJob::execute()`: running the job produces its behaviour. -/
def execute (j : Job) : JobBehavior := j.behavior

/-- The state of a `JobQueue` (job_queue.h): the FIFO `buffer`
(`std::deque<std::unique_ptr<IJob>>`) and the `closed` flag.  The mutex and
condition variable serialize operations; the embedding works on the serialized
state directly. -/
structure JobQueue where
  buffer : List JobHandle
  closed : Bool
deriving DecidableEq

/-- `JobQueue::push` (job_queue.cpp lines 47-52): appends the handle to the
tail of the buffer unconditionally — no null check and no closed check. -/
def JobQueue.push (q : JobQueue) (job : JobHandle) : JobQueue :=
  { q with buffer := q.buffer ++ [job] }

/-- `JobQueue::pop` (job_queue.cpp lines 77-92).  The condition-variable wait
has predicate `closed || !buffer.empty()`; while it is false the call blocks,
modelled by the outer `none`.  When the call returns: if `closed` and the
buffer is empty, the null sentinel is returned with the state unchanged;
otherwise the head of the buffer is removed and returned. -/
def JobQueue.pop (q : JobQueue) : Option (JobHandle × JobQueue) :=
  match q.buffer with
  | [] => if q.closed then some (none, q) else none
  | j :: rest => some (j, { q with buffer := rest })

/-- `JobQueue::empty` (job_queue.cpp lines 104-108): snapshot of
`buffer.empty()`. -/
def JobQueue.empty (q : JobQueue) : Bool := q.buffer.isEmpty

/-- `JobQueue::size` (job_queue.cpp lines 117-121): snapshot of
`buffer.size()`. -/
def JobQueue.size (q : JobQueue) : Nat := q.buffer.length

/-- `JobQueue::clear` (job_queue.cpp lines 136-141): drops all buffered jobs;
does not touch `closed`. -/
def JobQueue.clear (q : JobQueue) : JobQueue := { q with buffer := [] }

/-- `JobQueue::shutdown` (job_queue.cpp lines 155-161): sets `closed = true`
(and broadcasts to waiters, which has no effect on the serialized state). -/
def JobQueue.shutdown (q : JobQueue) : JobQueue := { q with closed := true }

/-- `JobQueue::is_closed` (job_queue.cpp lines 170-173): advisory read of
`closed`. -/
def JobQueue.is_closed (q : JobQueue) : Bool := q.closed

/-- The state of a `ThreadPool` (thread_pool.h): its owned `queue`, the atomic
`running` flag, and the vector of tracked worker threads, represented by their
labels ("Worker 0", "Worker 1", …). -/
structure ThreadPool where
  queue : JobQueue
  running : Bool
  threads : List String
deriving DecidableEq

/-- `ThreadPool::ThreadPool()`: empty open queue, `running = false`, no
threads. -/
def ThreadPool.init : ThreadPool :=
  { queue := { buffer := [], closed := false }, running := false, threads := [] }

/-- `ThreadPool::start` (thread_pool.cpp lines 72-85): returns immediately if
`running`; otherwise sets `running = true`, replaces a zero worker count by 1,
and spawns that many workers, recording them in `threads`. -/
def ThreadPool.start (p : ThreadPool) (number_workers : Nat) : ThreadPool :=
  if p.running then p
  else
    let n := if number_workers = 0 then 1 else number_workers
    { p with
      running := true
      threads := p.threads ++ (List.range n).map (fun i => "Worker " ++ toString i) }

/-- `ThreadPool::enqueue` (thread_pool.cpp lines 105-108): unconditionally
forwards the handle to `queue.push` — no null check and no `running` check. -/
def ThreadPool.enqueue (p : ThreadPool) (job : JobHandle) : ThreadPool :=
  { p with queue := p.queue.push job }

/-- `ThreadPool::tryEnqueue` (thread_pool.cpp lines 128-144): returns `false`
without pushing when `running` is false, then when `queue.is_closed()`;
otherwise pushes and returns `true`.  The handle argument is consumed: a
rejected job is destroyed when the by-value `unique_ptr` parameter goes out of
scope, so the result carries no job back to the caller. -/
def ThreadPool.tryEnqueue (p : ThreadPool) (job : JobHandle) : Bool × ThreadPool :=
  if !p.running then (false, p)
  else if p.queue.is_closed then (false, p)
  else (true, { p with queue := p.queue.push job })

/-- Result of one iteration of the worker loop `ThreadPool::threadLoop`
(thread_pool.cpp lines 311-332):
* `continued msg` — a job was popped and executed and the loop proceeds to the
  next iteration; `msg` is the `Logger::error` report when a
  `std::exception` was caught, `none` on a normal execution;
* `terminated` — `pop` returned the null sentinel and the loop breaks (the
  worker thread exits normally);
* `escaped` — `execute()` raised a value not matched by the
  `catch (const std::exception&)` clause, so the error propagates out of the
  loop and the worker thread is terminated by the runtime. -/
inductive IterResult where
  | continued : Option String → IterResult
  | terminated : IterResult
  | escaped : IterResult
deriving DecidableEq

/-- One iteration of `ThreadPool::threadLoop` (thread_pool.cpp lines 311-332)
on the shared queue: pop (the outer `none` means the pop blocks), break on the
null sentinel, and otherwise run `execute()` inside
`try { ... } catch (const std::exception& e)`, which logs
`"[Thread Pool][" + worker_name + "] Exception: " + e.what()` for exceptions
derived from `std::exception` and matches nothing else. -/
def threadLoopIter (worker_name : String) (q : JobQueue) :
    Option (IterResult × JobQueue) :=
  match q.pop with
  | none => none
  | some (none, q1) => some (IterResult.terminated, q1)
  | some (some j, q1) =>
    match execute j with
    | JobBehavior.ok => some (IterResult.continued none, q1)
    | JobBehavior.throwStd msg =>
        some (IterResult.continued
          (some ("[Thread Pool][" ++ worker_name ++ "] Exception: " ++ msg)), q1)
    | JobBehavior.throwOther => some (IterResult.escaped, q1)

/-- A sequence of `JobQueue::push` calls, in list order. -/
def pushAll (q : JobQueue) (jobs : List JobHandle) : JobQueue :=
  jobs.foldl JobQueue.push q

/-- `n` successive `JobQueue::pop` calls, collecting the returned handles;
`none` if any of the pops blocks. -/
def popN : Nat → JobQueue → Option (List JobHandle × JobQueue)
  | 0, q => some ([], q)
  | n + 1, q =>
    match q.pop with
    | none => none
    | some (j, q1) =>
      match popN n q1 with
      | none => none
      | some (js, q2) => some (j :: js, q2)

/-! Sample jobs and pools used by concrete witnesses. -/

/-- A job whose `execute()` returns normally. -/
def jobA : Job := { id := 1, behavior := JobBehavior.ok }

/-- A second normally-returning job. -/
def jobB : Job := { id := 2, behavior := JobBehavior.ok }

/-- A job whose `execute()` throws `std::runtime_error("Fake job error")`, as
the test double `FakeThrowingJob` does. -/
def jobStd : Job := { id := 3, behavior := JobBehavior.throwStd "Fake job error" }

/-- A job whose `execute()` throws a value not derived from `std::exception`. -/
def jobOther : Job := { id := 4, behavior := JobBehavior.throwOther }

/-- A freshly started pool: empty open queue, `running = true`. -/
def poolRunning : ThreadPool :=
  { queue := { buffer := [], closed := false }, running := true, threads := [] }

/-! Helper lemmas. -/

/-- Pushing a list of handles appends it to the buffer and preserves
`closed`. -/
theorem pushAll_eq (jobs : List JobHandle) (q : JobQueue) :
    pushAll q jobs = { buffer := q.buffer ++ jobs, closed := q.closed } := by
  induction jobs generalizing q with
  | nil => simp [pushAll]
  | cons j js ih =>
    show pushAll (q.push j) js = _
    rw [ih]
    simp [JobQueue.push]

/-- Popping exactly the buffer's length drains the buffer in order. -/
theorem popN_length (buf : List JobHandle) (c : Bool) :
    popN buf.length { buffer := buf, closed := c }
      = some (buf, { buffer := [], closed := c }) := by
  induction buf with
  | nil => simp [popN]
  | cons a as ih => simp [popN, JobQueue.pop, ih]

/-! Claim theorems. -/

/-- Claim C1: the queue is strictly FIFO — for every sequence of handles
`ps` pushed via `JobQueue::push` (starting from an empty buffer, in either
closed state) before any pop, performing `ps.length` pops via `JobQueue::pop`
yields exactly `ps` in that order and drains the queue; in particular, for any
two jobs A pushed before B that are both popped, A is popped before B. -/
theorem fifo_push_then_pop (c : Bool) (ps : List JobHandle) :
    popN ps.length (pushAll { buffer := [], closed := c } ps)
      = some (ps, { buffer := [], closed := c }) := by
  rw [pushAll_eq]
  simpa using popN_length ps c

/-- Claim C5: `ThreadPool::tryEnqueue` returns `false` and leaves the pool
unchanged exactly when `running` is false or the queue is closed; in every
other state it appends the job to the queue and returns `true`. -/
theorem tryEnqueue_spec (p : ThreadPool) (j : JobHandle) :
    p.tryEnqueue j =
      if p.running = true ∧ p.queue.closed = false then
        (true, { p with queue := p.queue.push j })
      else (false, p) := by
  obtain ⟨pq, pr, pt⟩ := p
  cases pr <;> cases hc : pq.closed <;>
    simp [ThreadPool.tryEnqueue, JobQueue.is_closed, hc]

/-- Claim C6: `JobQueue::push` succeeds unconditionally in every queue state
(including a closed one), appending the handle to the tail so the size grows
by one and `closed` is untouched; and `ThreadPool::enqueue` forwards every job
to `queue.push` regardless of the `running` flag, leaving `running` and the
worker list unchanged. -/
theorem push_unconditional (q : JobQueue) (j : JobHandle) (p : ThreadPool) :
    (q.push j).buffer = q.buffer ++ [j] ∧
    (q.push j).size = q.size + 1 ∧
    (q.push j).closed = q.closed ∧
    (p.enqueue j).queue = p.queue.push j ∧
    (p.enqueue j).running = p.running ∧
    (p.enqueue j).threads = p.threads := by
  simp [JobQueue.push, JobQueue.size, ThreadPool.enqueue]

/-- Claim C3 (failing input): contrary to the spec and to the header's
`@warning This function throws if job is nullptr`, a null handle passed to
`ThreadPool::enqueue` or to `JobQueue::push` is silently appended to the
buffer — no rejection is raised — and a worker that later pops it mistakes it
for the shutdown sentinel and exits its loop. -/
theorem null_job_silently_accepted :
    (ThreadPool.enqueue poolRunning none).queue.buffer = [none] ∧
    (JobQueue.push { buffer := [], closed := false } none).buffer = [none] ∧
    threadLoopIter "Worker 0" { buffer := [none], closed := false }
      = some (IterResult.terminated, { buffer := [], closed := false }) := by
  decide

/-- Claim C4 (counterexample): a job whose `execute()` raises a value not
derived from `std::exception` is not matched by the worker loop's
`catch (const std::exception&)` clause, so the error escapes the loop and the
worker does not proceed to the next job — refuting the claim that every
possible error raised by `execute()` is contained. -/
theorem nonstd_error_escapes_loop :
    threadLoopIter "Worker 0" { buffer := [some jobOther], closed := false }
      = some (IterResult.escaped, { buffer := [], closed := false }) := by
  decide

/-- Claim C2: over queue states respecting push's documented non-null
precondition, a returning `JobQueue::pop` yields the null sentinel exactly
when `closed` is true and the buffer is empty; in every other returning state
it removes and returns the head of the FIFO and preserves `closed` — so on a
closed but non-empty queue it still dequeues the head job. -/
theorem pop_sentinel_iff (q : JobQueue) (hval : ∀ h ∈ q.buffer, h ≠ none) :
    ((∃ q', q.pop = some (none, q')) ↔ (q.closed = true ∧ q.buffer = [])) ∧
    (∀ j q', q.pop = some (some j, q') →
      q.buffer.head? = some (some j) ∧ q'.buffer = q.buffer.tail ∧
      q'.closed = q.closed) := by
  obtain ⟨buf, c⟩ := q
  cases buf with
  | nil => cases c <;> simp [JobQueue.pop]
  | cons a as =>
    have ha : a ≠ none := hval a (List.mem_cons_self a as)
    constructor
    · simp only [JobQueue.pop]
      constructor
      · rintro ⟨q', hq'⟩
        simp only [Option.some.injEq, Prod.mk.injEq] at hq'
        exact absurd hq'.1 ha
      · rintro ⟨-, h⟩
        exact absurd h (List.cons_ne_nil a as)
    · intro j q' h
      simp only [JobQueue.pop, Option.some.injEq, Prod.mk.injEq] at h
      obtain ⟨h1, h2⟩ := h
      subst h2
      simp [← h1]

/-- Witness for C2 at a closed, non-empty queue holding the non-null job
`jobA`: the hypothesis holds and pop dequeues the head rather than returning
the sentinel. -/
theorem pop_sentinel_iff_witness :
    (∀ h ∈ ({ buffer := [some jobA], closed := true } : JobQueue).buffer,
        h ≠ none) ∧
    (((∃ q', ({ buffer := [some jobA], closed := true } : JobQueue).pop
          = some (none, q')) ↔
        (({ buffer := [some jobA], closed := true } : JobQueue).closed = true ∧
         ({ buffer := [some jobA], closed := true } : JobQueue).buffer = [])) ∧
     (∀ j q', ({ buffer := [some jobA], closed := true } : JobQueue).pop
          = some (some j, q') →
        ({ buffer := [some jobA], closed := true } : JobQueue).buffer.head?
            = some (some j) ∧
        q'.buffer
            = ({ buffer := [some jobA], closed := true } : JobQueue).buffer.tail ∧
        q'.closed = ({ buffer := [some jobA], closed := true } : JobQueue).closed)) :=
  ⟨by decide, pop_sentinel_iff { buffer := [some jobA], closed := true } (by decide)⟩

/-- Claim C4 (amended): any error derived from `std::exception` raised by
`execute()` is caught at the worker-loop boundary of `ThreadPool::threadLoop`
and reported via `Logger::error`, the worker survives, and the loop proceeds
on the remaining queue; likewise a normally-returning job continues the
loop. -/
theorem std_exception_contained (w : String) (q q1 : JobQueue) (j : Job)
    (hpop : q.pop = some (some j, q1)) :
    (execute j = JobBehavior.ok →
      threadLoopIter w q = some (IterResult.continued none, q1)) ∧
    (∀ msg, execute j = JobBehavior.throwStd msg →
      threadLoopIter w q = some (IterResult.continued
        (some ("[Thread Pool][" ++ w ++ "] Exception: " ++ msg)), q1)) := by
  constructor
  · intro h
    simp only [threadLoopIter, hpop, h]
  · intro msg h
    simp only [threadLoopIter, hpop, h]

/-- Witness for the amended C4 at the std-throwing job `jobStd` popped from a
one-element queue by "Worker 0". -/
theorem std_exception_contained_witness :
    (JobQueue.pop { buffer := [some jobStd], closed := false }
        = some (some jobStd, { buffer := [], closed := false })) ∧
    ((execute jobStd = JobBehavior.ok →
        threadLoopIter "Worker 0" { buffer := [some jobStd], closed := false }
          = some (IterResult.continued none, { buffer := [], closed := false })) ∧
     (∀ msg, execute jobStd = JobBehavior.throwStd msg →
        threadLoopIter "Worker 0" { buffer := [some jobStd], closed := false }
          = some (IterResult.continued
              (some ("[Thread Pool][" ++ "Worker 0" ++ "] Exception: " ++ msg)),
            { buffer := [], closed := false }))) :=
  ⟨by decide,
   std_exception_contained "Worker 0" { buffer := [some jobStd], closed := false }
     { buffer := [], closed := false } jobStd (by decide)⟩

/-- Claim C7: the `closed` flag is one-way.  `JobQueue::shutdown` sets it to
true and is idempotent; `push`, `clear`, and a returning `pop` all leave
`closed` exactly as they found it (so none can reset it to false), and the
queries `empty`, `size`, `is_closed` read the state without producing a new
one — `is_closed` reports `closed` verbatim. -/
theorem closed_one_way (q : JobQueue) (j : JobHandle) :
    q.shutdown.closed = true ∧
    q.shutdown.shutdown = q.shutdown ∧
    (q.push j).closed = q.closed ∧
    q.clear.closed = q.closed ∧
    (∀ r, q.pop = some r → r.2.closed = q.closed) ∧
    q.is_closed = q.closed := by
  refine ⟨rfl, rfl, rfl, rfl, ?_, rfl⟩
  intro r h
  obtain ⟨buf, c⟩ := q
  cases buf with
  | nil =>
    cases c with
    | false => simp [JobQueue.pop] at h
    | true =>
      simp only [JobQueue.pop, if_pos, Option.some.injEq] at h
      rw [← h]
  | cons a as =>
    simp only [JobQueue.pop, Option.some.injEq] at h
    rw [← h]

/-- Witness for C7 on a closed one-element queue and the handle `some jobB`. -/
theorem closed_one_way_witness :
    ({ buffer := [some jobA], closed := true } : JobQueue).shutdown.closed = true ∧
    ({ buffer := [some jobA], closed := true } : JobQueue).shutdown.shutdown
      = ({ buffer := [some jobA], closed := true } : JobQueue).shutdown ∧
    (({ buffer := [some jobA], closed := true } : JobQueue).push
        (some jobB)).closed
      = ({ buffer := [some jobA], closed := true } : JobQueue).closed ∧
    ({ buffer := [some jobA], closed := true } : JobQueue).clear.closed
      = ({ buffer := [some jobA], closed := true } : JobQueue).closed ∧
    (∀ r, ({ buffer := [some jobA], closed := true } : JobQueue).pop = some r →
      r.2.closed = ({ buffer := [some jobA], closed := true } : JobQueue).closed) ∧
    ({ buffer := [some jobA], closed := true } : JobQueue).is_closed
      = ({ buffer := [some jobA], closed := true } : JobQueue).closed :=
  closed_one_way { buffer := [some jobA], closed := true } (some jobB)

/-- Claim C8: `ThreadPool::start n` is a no-op on a running pool, and on a
non-running pool (which, having never started or having been joined, tracks no
workers) it marks the pool running and creates exactly `max n 1` workers — in
particular `start 0` creates exactly one worker. -/
theorem start_clamps_workers (p p' : ThreadPool) (n : Nat)
    (hrun : p'.running = true) (hnot : p.running = false)
    (hthreads : p.threads = []) :
    p'.start n = p' ∧
    (p.start n).threads.length = max n 1 ∧
    (p.start n).running = true := by
  refine ⟨?_, ?_, ?_⟩
  · simp [ThreadPool.start, hrun]
  · simp only [ThreadPool.start, hnot, Bool.false_eq_true, if_false, hthreads,
      List.nil_append, List.length_map, List.length_range]
    split <;> omega
  · simp [ThreadPool.start, hnot]

/-- Witness for C8: `start 0` on the fresh pool makes exactly one worker,
while `start 0` on a running pool changes nothing. -/
theorem start_clamps_workers_witness :
    poolRunning.running = true ∧ ThreadPool.init.running = false ∧
    ThreadPool.init.threads = [] ∧
    (poolRunning.start 0 = poolRunning ∧
     (ThreadPool.init.start 0).threads.length = max 0 1 ∧
     (ThreadPool.init.start 0).running = true) :=
  ⟨rfl, rfl, rfl, start_clamps_workers ThreadPool.init poolRunning 0 rfl rfl rfl⟩

/-- Claim C9: a rejected `ThreadPool::tryEnqueue` (pool not running, or queue
closed) returns `false` and the unchanged pool: the job is not appended to the
buffer, the `closed` flag is untouched, and the result carries no job handle
back to the caller — the consumed handle is simply destroyed. -/
theorem tryEnqueue_reject (p : ThreadPool) (j : JobHandle)
    (h : p.running = false ∨ p.queue.closed = true) :
    (p.tryEnqueue j).1 = false ∧
    (p.tryEnqueue j).2.queue.buffer = p.queue.buffer ∧
    (p.tryEnqueue j).2.queue.closed = p.queue.closed ∧
    (p.tryEnqueue j).2 = p := by
  have : p.tryEnqueue j = (false, p) := by
    rcases h with h | h
    · simp [ThreadPool.tryEnqueue, h]
    · cases hr : p.running <;>
        simp [ThreadPool.tryEnqueue, JobQueue.is_closed, h, hr]
  simp [this]

/-- Witness for C9: `tryEnqueue` of `jobA` on the never-started pool is
rejected and leaves the pool untouched. -/
theorem tryEnqueue_reject_witness :
    (ThreadPool.init.running = false ∨ ThreadPool.init.queue.closed = true) ∧
    ((ThreadPool.init.tryEnqueue (some jobA)).1 = false ∧
     (ThreadPool.init.tryEnqueue (some jobA)).2.queue.buffer
        = ThreadPool.init.queue.buffer ∧
     (ThreadPool.init.tryEnqueue (some jobA)).2.queue.closed
        = ThreadPool.init.queue.closed ∧
     (ThreadPool.init.tryEnqueue (some jobA)).2 = ThreadPool.init) :=
  ⟨Or.inl rfl, tryEnqueue_reject ThreadPool.init (some jobA) (Or.inl rfl)⟩

/-- Claim C10: for every queue state, `JobQueue::empty` returns true exactly
when `JobQueue::size` returns 0; both are pure snapshots of the state, so
neither alters the buffer or the `closed` flag. -/
theorem empty_iff_size_zero (q : JobQueue) : q.empty = true ↔ q.size = 0 := by
  obtain ⟨buf, c⟩ := q
  cases buf <;> simp [JobQueue.empty, JobQueue.size]

/-- Witness for C10 on the empty open queue. -/
theorem empty_iff_size_zero_witness :
    ({ buffer := [], closed := false } : JobQueue).empty = true ↔
    ({ buffer := [], closed := false } : JobQueue).size = 0 :=
  empty_iff_size_zero { buffer := [], closed := false }

end TaskScheduler
